import Mathlib

/-!
Verification of the TCP delivery-rate estimator (`tcp-rate-ops.h`,
class `TcpRateOps` / `TcpRateLinux`).

Shallow embedding conventions:
* `ns3::Time` is modelled as a rational number of seconds (`ℚ`); the
  simulator clock is passed explicitly as a `now` argument to the
  operations that read it.
* `ns3::DataRate` is modelled as a rational number of bytes per second.
* unsigned machine counters (`uint32_t`, `uint64_t`) are modelled as `Nat`;
  none of the verified properties involve wrap-around.
* The repository snapshot only contains the header `tcp-rate-ops.h`: the
  `struct` layouts and the inline `TcpRateSample::IsValid` are source code,
  while the bodies of `SkbSent`, `SkbDelivered`, `CalculateAppLimited` and
  `SampleGen` (in `tcp-rate-ops.cc`) are absent and are modelled from the
  specification, as their doc comments state.
-/

/-- Modelled from the spec: the Segment Snapshot ("rate information") that
`SkbSent` attaches to a `TcpTxItem`.  The `TcpTxItem` class (tcp-tx-item.h)
is not part of the source snapshot; the fields follow spec §3:
`delivered_at_send`, `delivered_time_at_send`, `first_sent_time_at_send`,
`is_app_limited_at_send`, `tx_item_delivered_at_send`. -/
structure SegmentSnapshot where
  delivered_at_send : Nat := 0
  delivered_time_at_send : ℚ := 0
  first_sent_time_at_send : ℚ := 0
  is_app_limited_at_send : Bool := false
  tx_item_delivered_at_send : Nat := 0
deriving DecidableEq, Repr

/-- The `TcpRateOps::TcpRateSample` struct (tcp-rate-ops.h lines 109-130),
with the member initializers of the source as Lean default values:
`m_deliveryRate {DataRate ("0bps")}`, `m_isAppLimited {0}`,
`m_interval {Seconds (0.0)}`, `m_delivered {0}`, `m_priorDelivered {0}`,
`m_priorTime {Seconds (0.0)}`, `m_sendElapsed {Seconds (0.0)}`,
`m_ackElapsed {Seconds (0.0)}`, `m_packetLoss {0}`, `m_priorInFlight {0}`. -/
structure TcpRateSample where
  m_deliveryRate : ℚ := 0
  m_isAppLimited : Nat := 0
  m_interval : ℚ := 0
  m_delivered : Nat := 0
  m_priorDelivered : Nat := 0
  m_priorTime : ℚ := 0
  m_sendElapsed : ℚ := 0
  m_ackElapsed : ℚ := 0
  m_packetLoss : Nat := 0
  m_priorInFlight : Nat := 0
deriving DecidableEq, Repr

/-- `TcpRateSample::IsValid` (tcp-rate-ops.h lines 126-129), verbatim from
the source: `return (m_priorTime != Seconds (0.0) || m_interval != Seconds (0.0));` -/
def TcpRateSample.IsValid (rs : TcpRateSample) : Bool :=
  rs.m_priorTime != 0 || rs.m_interval != 0

/-- The per-connection rate state: the fields of `TcpRateLinux::TcpRate`
(tcp-rate-ops.h lines 160-168) with their source default values, plus
`lastSampleBasis`, modelled from the spec (§3 Rate State
`last_sample_basis`): the Segment Snapshot currently selected as the
interval anchor for the in-progress pass (`none` = no basis held). -/
structure RateState where
  m_delivered : Nat := 0
  m_deliveredTime : ℚ := 0
  m_firstSentTime : ℚ := 0
  m_appLimited : Nat := 0
  m_txItemDelivered : Nat := 0
  m_lastAckedSackedBytes : Nat := 0
  lastSampleBasis : Option SegmentSnapshot := none
deriving DecidableEq, Repr

/-- Modelled from the spec: `TcpRateLinux::SkbSent` (its body, in
tcp-rate-ops.cc, is not in the source snapshot).  Spec §4.1: if
`is_start_of_transmission`, reset `first_sent_time` and `delivered_time`
in Rate State to "now"; then capture a Segment Snapshot from the current
Rate State fields and attach it to the segment (returned here as the
second component).  Per spec §4.3 the watermark is a send-sequence
number: the snapshot is tagged app-limited when the watermark is set
(non-zero, §3) and the segment's sequence does not exceed it. -/
def SkbSent (st : RateState) (now : ℚ) (isStartOfTransmission : Bool)
    (seq : Nat) : RateState × SegmentSnapshot :=
  let st' := if isStartOfTransmission then
               { st with m_firstSentTime := now, m_deliveredTime := now }
             else st
  (st',
   { delivered_at_send := st'.m_delivered
     delivered_time_at_send := st'.m_deliveredTime
     first_sent_time_at_send := st'.m_firstSentTime
     is_app_limited_at_send := decide (st'.m_appLimited ≠ 0 ∧ seq ≤ st'.m_appLimited)
     tx_item_delivered_at_send := st'.m_txItemDelivered })

/-- Modelled from the spec: `TcpRateLinux::SkbDelivered` (its body, in
tcp-rate-ops.cc, is not in the source snapshot).  Spec §4.2: increment
`delivered` by the segment's byte size; set `delivered_time` to now;
if this segment's `delivered_at_send` exceeds the `delivered_at_send` of
the currently held `last_sample_basis` (or no basis is held yet this
pass), replace the basis with this segment's snapshot.  The "last-used
sample basis counter" `m_txItemDelivered` (§3) tracks the selected
basis's delivered count. -/
def SkbDelivered (st : RateState) (now : ℚ) (skb : SegmentSnapshot)
    (size : Nat) : RateState :=
  let st' := { st with
               m_delivered := st.m_delivered + size
               m_deliveredTime := now }
  match st'.lastSampleBasis with
  | none => { st' with lastSampleBasis := some skb
                       m_txItemDelivered := skb.delivered_at_send }
  | some b =>
      if b.delivered_at_send < skb.delivered_at_send then
        { st' with lastSampleBasis := some skb
                   m_txItemDelivered := skb.delivered_at_send }
      else st'

/-- Modelled from the spec: `TcpRateLinux::CalculateAppLimited` (its body,
in tcp-rate-ops.cc, is not in the source snapshot).  Spec §4.3: the
app-limited condition holds when `in_flight_bytes + segment_size <=
congestion_window` and `tail_sequence <= next_tx_sequence`; when it holds,
set `app_limited_watermark` to the current highest-sent sequence number
(here `nextTx - 1`, since `nextTx` is the next sequence to be
transmitted); otherwise leave the state unchanged. -/
def CalculateAppLimited (st : RateState) (cWnd inFlight segmentSize : Nat)
    (tailSeq nextTx : Nat) : RateState :=
  if inFlight + segmentSize ≤ cWnd ∧ tailSeq ≤ nextTx then
    { st with m_appLimited := nextTx - 1 }
  else st

/-- Modelled from the spec: `TcpRateLinux::SampleGen` (its body, in
tcp-rate-ops.cc, is not in the source snapshot).  Spec §4.4:
1. if `is_sack_reneg`, discard `last_sample_basis` and return an
   explicitly invalid sample (interval = 0, delivery rate = 0);
2. otherwise with basis `b` compute `send_elapsed = now_send_reference -
   b.first_sent_time_at_send` (the send reference being Rate State's
   `first_sent_time`), `ack_elapsed = now - b.delivered_time_at_send`,
   `interval = max send_elapsed ack_elapsed`;
3. if `interval ≤ 0` or no basis was set this pass, return an explicitly
   invalid fresh sample with `delivery_rate = 0` (all fields at their
   defaults), never dividing;
4. otherwise `delivery_rate = delivered_count / interval` and the
   remaining fields come from the basis and the pass-accumulated counts;
5. the pass-scoped basis is cleared and `m_lastAckedSackedBytes` records
   the bytes accounted in this pass (§3, diagnostic only).
`minRtt` is context only (spec §4.4 inputs) and is not used. -/
def SampleGen (st : RateState) (now : ℚ) (delivered lost : Nat)
    (isSackReneg : Bool) (minRtt : ℚ) : RateState × TcpRateSample :=
  let stCleared := { st with lastSampleBasis := none
                             m_lastAckedSackedBytes := delivered }
  if isSackReneg then
    (stCleared, {})
  else
    match st.lastSampleBasis with
    | none => (stCleared, {})
    | some b =>
        let sendElapsed := st.m_firstSentTime - b.first_sent_time_at_send
        let ackElapsed := now - b.delivered_time_at_send
        let interval := max sendElapsed ackElapsed
        if interval ≤ 0 then
          (stCleared, {})
        else
          (stCleared,
           { m_deliveryRate := (delivered : ℚ) / interval
             m_isAppLimited := if b.is_app_limited_at_send then 1 else 0
             m_interval := interval
             m_delivered := delivered
             m_priorDelivered := b.delivered_at_send
             m_priorTime := b.delivered_time_at_send
             m_sendElapsed := sendElapsed
             m_ackElapsed := ackElapsed
             m_packetLoss := lost })

/-- The four estimator operations as events of one trace, so that
properties over whole call sequences can be stated.  Each event carries
the arguments of the corresponding call; `now` is the simulator clock at
the call. -/
inductive RateEvent where
  | segSent (now : ℚ) (isStartOfTransmission : Bool) (seq : Nat)
  | segDelivered (now : ℚ) (skb : SegmentSnapshot) (size : Nat)
  | appLimitedCheck (cWnd inFlight segmentSize tailSeq nextTx : Nat)
  | sampleGen (now : ℚ) (delivered lost : Nat) (isSackReneg : Bool) (minRtt : ℚ)
deriving DecidableEq, Repr

/-- One step of the estimator: dispatch an event to the operation it
stands for, keeping only the state (snapshots and samples are returned
to the caller). -/
def step (st : RateState) : RateEvent → RateState
  | .segSent now isStart seq => (SkbSent st now isStart seq).1
  | .segDelivered now skb size => SkbDelivered st now skb size
  | .appLimitedCheck cWnd inFlight segmentSize tailSeq nextTx =>
      CalculateAppLimited st cWnd inFlight segmentSize tailSeq nextTx
  | .sampleGen now delivered lost isSackReneg minRtt =>
      (SampleGen st now delivered lost isSackReneg minRtt).1

/-- A call is valid in a state when its clock has not gone backwards:
the simulator time `now` it carries is at least the state's
`delivered_time` (spec §5: sequential invocations driven by the
simulation scheduler). -/
def eventValid (st : RateState) : RateEvent → Bool
  | .segSent now _ _ => decide (st.m_deliveredTime ≤ now)
  | .segDelivered now _ _ => decide (st.m_deliveredTime ≤ now)
  | .appLimitedCheck _ _ _ _ _ => true
  | .sampleGen _ _ _ _ _ => true

/-- A call sequence is valid from a state when every call is valid in
the state where it executes (spec §2 "valid call sequences"). -/
def validSeq (st : RateState) : List RateEvent → Bool
  | [] => true
  | e :: es => eventValid st e && validSeq (step st e) es

/-- Run a sequence of calls from a state. -/
def runEvents (st : RateState) : List RateEvent → RateState
  | [] => st
  | e :: es => runEvents (step st e) es

/-- Two Segment Snapshots with equal `delivered_at_send` but different
`delivered_time_at_send`.  Such a pair is reachable: two segments sent
back to back with an idle restart between them, since
`is_start_of_transmission` resets `delivered_time` without increasing
`delivered`. -/
def tieSnapA : SegmentSnapshot :=
  { delivered_at_send := 100, delivered_time_at_send := 5 }

/-- Tie partner of `tieSnapA`: same `delivered_at_send`, later
`delivered_time_at_send`. -/
def tieSnapB : SegmentSnapshot :=
  { delivered_at_send := 100, delivered_time_at_send := 7 }

/-- Snapshot with `delivered_at_send = 100`, for the tie-break example of
spec §8. -/
def snap100 : SegmentSnapshot := { delivered_at_send := 100 }

/-- Snapshot with `delivered_at_send = 150`, for the tie-break example of
spec §8. -/
def snap150 : SegmentSnapshot := { delivered_at_send := 150 }

/-- The end-to-end scenario state of spec §8: a 100-byte segment sent at
t = 0 with `is_start_of_transmission = true` and delivered at t = 50 ms
(= 1/20 s). -/
def e2eState : RateState :=
  SkbDelivered (SkbSent {} 0 true 1).1 (1/20) (SkbSent {} 0 true 1).2 100

/-- A small valid call sequence: send a 100-byte segment at t = 0 (start
of transmission), deliver it at t = 50 ms. -/
def e2eTrace : List RateEvent :=
  [.segSent 0 true 1, .segDelivered (1/20) (SkbSent {} 0 true 1).2 100]

/-- Claim C1 counterexample: a sample whose measurement interval is zero
but whose `m_priorTime` is non-zero is reported valid by the source's
`IsValid`, contradicting the claim that every zero-interval sample is
invalid regardless of its other fields. -/
theorem isValid_true_of_zero_interval_nonzero_priorTime :
    ({ m_priorTime := 1 } : TcpRateSample).m_interval = 0 ∧
    ({ m_priorTime := 1 } : TcpRateSample).IsValid = true := by
  constructor
  · rfl
  · decide

/-- Claim C1 (amended): `IsValid` is the disjunction of the two field
tests, so a sample with a zero interval is invalid exactly when its
`m_priorTime` is also zero. -/
theorem isValid_eq_false_iff_of_zero_interval (rs : TcpRateSample)
    (h : rs.m_interval = 0) :
    rs.IsValid = false ↔ rs.m_priorTime = 0 := by
  simp [TcpRateSample.IsValid, h]

/-- Claim C1 witness: the amended statement applied to the
default-constructed sample. -/
theorem isValid_eq_false_iff_of_zero_interval_witness :
    ({} : TcpRateSample).m_interval = 0 ∧
    (({} : TcpRateSample).IsValid = false ↔ ({} : TcpRateSample).m_priorTime = 0) :=
  ⟨rfl, isValid_eq_false_iff_of_zero_interval {} rfl⟩

/-- Claim C10: a default-constructed `TcpRateSample` is invalid, and
`IsValid` depends only on the `m_priorTime` and `m_interval` fields: any
two samples agreeing on those two fields have the same validity. -/
theorem default_sample_invalid_and_isValid_depends_on_two_fields :
    ({} : TcpRateSample).IsValid = false ∧
    ∀ a b : TcpRateSample, a.m_priorTime = b.m_priorTime →
      a.m_interval = b.m_interval → a.IsValid = b.IsValid := by
  constructor
  · decide
  · intro a b h1 h2
    simp [TcpRateSample.IsValid, h1, h2]

/-- Claim C10 witness: two samples differing in every field except
`m_priorTime` and `m_interval` get the same validity verdict. -/
theorem default_sample_invalid_and_isValid_depends_witness :
    ({ m_priorTime := 1, m_delivered := 3 } : TcpRateSample).m_priorTime =
      ({ m_priorTime := 1, m_packetLoss := 9 } : TcpRateSample).m_priorTime ∧
    ({ m_priorTime := 1, m_delivered := 3 } : TcpRateSample).m_interval =
      ({ m_priorTime := 1, m_packetLoss := 9 } : TcpRateSample).m_interval ∧
    ({ m_priorTime := 1, m_delivered := 3 } : TcpRateSample).IsValid =
      ({ m_priorTime := 1, m_packetLoss := 9 } : TcpRateSample).IsValid :=
  ⟨rfl, rfl,
   default_sample_invalid_and_isValid_depends_on_two_fields.2 _ _ rfl rfl⟩

/-- Helper: a fresh (default-constructed) sample is reported invalid by
the source's `IsValid`, both of its tested fields being zero. -/
theorem freshSample_isValid_false : ({} : TcpRateSample).IsValid = false := by
  decide

/-- Claim C8: with `is_start_of_transmission = true`, `SkbSent` resets
`first_sent_time` and `delivered_time` to "now" before the snapshot is
captured (so the snapshot records the reset values); for every call,
`m_delivered` and the app-limited watermark are unchanged, as are the
basis and the remaining counters, and with `is_start_of_transmission =
false` the state is untouched entirely. -/
theorem skbSent_resets_timestamps_and_frames (st : RateState) (now : ℚ)
    (isStart : Bool) (seq : Nat) :
    (SkbSent st now true seq).1.m_firstSentTime = now ∧
    (SkbSent st now true seq).1.m_deliveredTime = now ∧
    (SkbSent st now true seq).2.first_sent_time_at_send = now ∧
    (SkbSent st now true seq).2.delivered_time_at_send = now ∧
    (SkbSent st now isStart seq).1.m_delivered = st.m_delivered ∧
    (SkbSent st now isStart seq).1.m_appLimited = st.m_appLimited ∧
    (SkbSent st now isStart seq).1.lastSampleBasis = st.lastSampleBasis ∧
    (SkbSent st now isStart seq).1.m_txItemDelivered = st.m_txItemDelivered ∧
    (SkbSent st now isStart seq).1.m_lastAckedSackedBytes = st.m_lastAckedSackedBytes ∧
    (SkbSent st now false seq).1 = st := by
  cases isStart <;> simp [SkbSent]

/-- Claim C5: a `SampleGen` call with `is_sack_reneg = true` clears the
pass-scoped basis and returns an explicitly invalid sample with
interval 0 (and delivery rate 0), deriving no rate this pass. -/
theorem sampleGen_sack_reneg_clears_basis_and_invalid (st : RateState)
    (now : ℚ) (delivered lost : Nat) (minRtt : ℚ) :
    (SampleGen st now delivered lost true minRtt).1.lastSampleBasis = none ∧
    (SampleGen st now delivered lost true minRtt).2.m_interval = 0 ∧
    (SampleGen st now delivered lost true minRtt).2.m_deliveryRate = 0 ∧
    (SampleGen st now delivered lost true minRtt).2.IsValid = false :=
  ⟨rfl, rfl, rfl, freshSample_isValid_false⟩

/-- Claim C2: whenever no basis was selected this pass, or the computed
interval `max (first_sent_time - basis.first_sent_time_at_send)
(now - basis.delivered_time_at_send)` is not positive, the sample
returned by `SampleGen` is invalid and its delivery rate is zero. -/
theorem sampleGen_invalid_of_no_basis_or_nonpos_interval (st : RateState)
    (now : ℚ) (delivered lost : Nat) (isSackReneg : Bool) (minRtt : ℚ)
    (h : st.lastSampleBasis = none ∨
         ∀ b : SegmentSnapshot, st.lastSampleBasis = some b →
           max (st.m_firstSentTime - b.first_sent_time_at_send)
               (now - b.delivered_time_at_send) ≤ 0) :
    (SampleGen st now delivered lost isSackReneg minRtt).2.IsValid = false ∧
    (SampleGen st now delivered lost isSackReneg minRtt).2.m_deliveryRate = 0 := by
  cases isSackReneg with
  | true => exact ⟨freshSample_isValid_false, rfl⟩
  | false =>
      cases hb : st.lastSampleBasis with
      | none =>
          simp only [SampleGen, hb]
          exact ⟨freshSample_isValid_false, rfl⟩
      | some b =>
          have hint : max (st.m_firstSentTime - b.first_sent_time_at_send)
              (now - b.delivered_time_at_send) ≤ 0 := by
            rcases h with h | h
            · rw [hb] at h; exact absurd h (by simp)
            · exact h b hb
          simp only [SampleGen, hb, if_pos hint]
          exact ⟨freshSample_isValid_false, rfl⟩

/-- Claim C2 witness: calling `SampleGen` on the initial state (no
segment ever delivered, hence no basis) yields an invalid sample with
zero delivery rate. -/
theorem sampleGen_invalid_no_basis_witness :
    ({} : RateState).lastSampleBasis = none ∧
    ((SampleGen {} 0 0 0 false 0).2.IsValid = false ∧
     (SampleGen {} 0 0 0 false 0).2.m_deliveryRate = 0) :=
  ⟨rfl, sampleGen_invalid_of_no_basis_or_nonpos_interval {} 0 0 0 false 0 (Or.inl rfl)⟩

/-- Claim C3 counterexample: two snapshots tied on `delivered_at_send`
(but differing in `delivered_time_at_send`) produce different final
bases depending on the delivery order, because the spec's tie-break
("exceeds") is strict: the first-delivered snapshot of a tie is kept. -/
theorem skbDelivered_basis_order_dependent_on_tie :
    (SkbDelivered (SkbDelivered {} 10 tieSnapA 1) 10 tieSnapB 1).lastSampleBasis ≠
    (SkbDelivered (SkbDelivered {} 10 tieSnapB 1) 10 tieSnapA 1).lastSampleBasis := by
  norm_num [SkbDelivered, tieSnapA, tieSnapB, SegmentSnapshot.mk.injEq]

/-- Claim C3 (amended): within one pass, for two delivered segments whose
`delivered_at_send` values are distinct, the final basis is independent
of the delivery order and is the snapshot with the greater
`delivered_at_send`. -/
theorem skbDelivered_basis_max_of_distinct (st : RateState)
    (h0 : st.lastSampleBasis = none) (t1 t2 : ℚ) (z1 z2 : Nat)
    (s1 s2 : SegmentSnapshot)
    (hne : s1.delivered_at_send ≠ s2.delivered_at_send) :
    (SkbDelivered (SkbDelivered st t1 s1 z1) t2 s2 z2).lastSampleBasis =
      (SkbDelivered (SkbDelivered st t2 s2 z2) t1 s1 z1).lastSampleBasis ∧
    (SkbDelivered (SkbDelivered st t1 s1 z1) t2 s2 z2).lastSampleBasis =
      some (if s1.delivered_at_send < s2.delivered_at_send then s2 else s1) := by
  have key : ∀ (u v : SegmentSnapshot) (ta tb : ℚ) (za zb : Nat),
      u.delivered_at_send < v.delivered_at_send →
      (SkbDelivered (SkbDelivered st ta u za) tb v zb).lastSampleBasis = some v ∧
      (SkbDelivered (SkbDelivered st tb v zb) ta u za).lastSampleBasis = some v := by
    intro u v ta tb za zb huv
    constructor
    · simp [SkbDelivered, h0, huv]
    · simp [SkbDelivered, h0, Nat.not_lt.mpr (Nat.le_of_lt huv)]
  rcases Nat.lt_or_ge s1.delivered_at_send s2.delivered_at_send with hlt | hge
  · rcases key s1 s2 t1 t2 z1 z2 hlt with ⟨ha, hb⟩
    rw [ha, hb, if_pos hlt]
    exact ⟨rfl, rfl⟩
  · have hlt2 : s2.delivered_at_send < s1.delivered_at_send :=
      lt_of_le_of_ne hge (Ne.symm hne)
    rcases key s2 s1 t2 t1 z2 z1 hlt2 with ⟨ha, hb⟩
    rw [hb, ha, if_neg (Nat.not_lt.mpr hge)]
    exact ⟨rfl, rfl⟩

/-- Claim C3 witness: delivering segments with `delivered_at_send` = 100
and 150 in either order yields the basis with `delivered_at_send` =
150. -/
theorem skbDelivered_basis_max_witness :
    ({} : RateState).lastSampleBasis = none ∧
    snap100.delivered_at_send ≠ snap150.delivered_at_send ∧
    (SkbDelivered (SkbDelivered {} 1 snap100 1) 2 snap150 1).lastSampleBasis =
      (SkbDelivered (SkbDelivered {} 2 snap150 1) 1 snap100 1).lastSampleBasis ∧
    (SkbDelivered (SkbDelivered {} 1 snap100 1) 2 snap150 1).lastSampleBasis =
      some (if snap100.delivered_at_send < snap150.delivered_at_send
            then snap150 else snap100) := by
  have h := skbDelivered_basis_max_of_distinct {} rfl 1 2 1 1 snap100 snap150
    (by norm_num [snap100, snap150])
  exact ⟨rfl, by norm_num [snap100, snap150], h.1, h.2⟩

/-- Claim C7: `CalculateAppLimited` sets the watermark to the highest sent
sequence (`nextTx - 1`) exactly when `in_flight + segment_size ≤ cWnd` and
`tailSeq ≤ nextTx`; afterwards (the watermark being set, i.e. positive),
any segment sent while the watermark holds value S is tagged
`is_app_limited_at_send = true` when its sequence is at most S and
`false` when its sequence exceeds S, and sending never alters the
watermark (so the tagging applies to every subsequent send up to and
including the first one past S). -/
theorem calculateAppLimited_watermark_tagging (st : RateState)
    (cWnd inFlight segmentSize tailSeq nextTx : Nat) :
    (inFlight + segmentSize ≤ cWnd ∧ tailSeq ≤ nextTx →
      (CalculateAppLimited st cWnd inFlight segmentSize tailSeq nextTx).m_appLimited
        = nextTx - 1) ∧
    (¬(inFlight + segmentSize ≤ cWnd ∧ tailSeq ≤ nextTx) →
      (CalculateAppLimited st cWnd inFlight segmentSize tailSeq nextTx).m_appLimited
        = st.m_appLimited) ∧
    (∀ (st2 : RateState) (now : ℚ) (isStart : Bool) (seq : Nat),
      st2.m_appLimited =
          (CalculateAppLimited st cWnd inFlight segmentSize tailSeq nextTx).m_appLimited →
      (SkbSent st2 now isStart seq).1.m_appLimited = st2.m_appLimited ∧
      (0 < st2.m_appLimited → seq ≤ st2.m_appLimited →
        (SkbSent st2 now isStart seq).2.is_app_limited_at_send = true) ∧
      (st2.m_appLimited < seq →
        (SkbSent st2 now isStart seq).2.is_app_limited_at_send = false)) := by
  refine ⟨fun h => by simp [CalculateAppLimited, h],
          fun h => by simp [CalculateAppLimited, h],
          fun st2 now isStart seq _ => ⟨?_, ?_, ?_⟩⟩
  · cases isStart <;> simp [SkbSent]
  · intro hpos hle
    cases isStart <;>
      simp [SkbSent, decide_eq_true_eq, Nat.pos_iff_ne_zero.mp hpos, hle]
  · intro hlt
    cases isStart <;>
      simp [SkbSent, decide_eq_true_eq, Nat.not_le.mpr hlt]

/-- Claim C7 witness: with room in the window and no queued unsent data,
`CalculateAppLimited` raises the watermark to 10 (`nextTx = 11`); a
segment then sent with sequence 7 ≤ 10 is tagged app-limited and one
with sequence 11 > 10 is not. -/
theorem calculateAppLimited_watermark_tagging_witness :
    (CalculateAppLimited {} 1000 0 100 5 11).m_appLimited = 10 ∧
    (SkbSent { m_appLimited := 10 } 0 false 7).2.is_app_limited_at_send = true ∧
    (SkbSent { m_appLimited := 10 } 0 false 11).2.is_app_limited_at_send = false := by
  have h := calculateAppLimited_watermark_tagging {} 1000 0 100 5 11
  refine ⟨?_, ?_, ?_⟩
  · rw [h.1 ⟨by decide, by decide⟩]
  · exact (h.2.2 { m_appLimited := 10 } 0 false 7 (by decide)).2.1 (by decide) (by decide)
  · exact (h.2.2 { m_appLimited := 10 } 0 false 11 (by decide)).2.2 (by decide)

/-- Claim C6: with `is_sack_reneg = false` and a basis `b` selected this
pass (and under the spec §5 ordering guarantee that the basis's
timestamps are not in the future), the sample's `send_elapsed` is the
send reference time (`first_sent_time`) minus `b.first_sent_time_at_send`,
its `ack_elapsed` is `now` minus `b.delivered_time_at_send`, and its
`interval` is the maximum of the two. -/
theorem sampleGen_elapsed_and_interval (st : RateState) (now : ℚ)
    (delivered lost : Nat) (minRtt : ℚ) (b : SegmentSnapshot)
    (hb : st.lastSampleBasis = some b)
    (hs : b.first_sent_time_at_send ≤ st.m_firstSentTime)
    (ha : b.delivered_time_at_send ≤ now) :
    (SampleGen st now delivered lost false minRtt).2.m_sendElapsed =
      st.m_firstSentTime - b.first_sent_time_at_send ∧
    (SampleGen st now delivered lost false minRtt).2.m_ackElapsed =
      now - b.delivered_time_at_send ∧
    (SampleGen st now delivered lost false minRtt).2.m_interval =
      max (st.m_firstSentTime - b.first_sent_time_at_send)
          (now - b.delivered_time_at_send) := by
  by_cases hI : max (st.m_firstSentTime - b.first_sent_time_at_send)
      (now - b.delivered_time_at_send) ≤ 0
  · have hse : (0:ℚ) ≤ st.m_firstSentTime - b.first_sent_time_at_send :=
      sub_nonneg.mpr hs
    have hae : (0:ℚ) ≤ now - b.delivered_time_at_send := sub_nonneg.mpr ha
    have hse0 : st.m_firstSentTime - b.first_sent_time_at_send = 0 :=
      le_antisymm (le_trans (le_max_left _ _) hI) hse
    have hae0 : now - b.delivered_time_at_send = 0 :=
      le_antisymm (le_trans (le_max_right _ _) hI) hae
    refine ⟨?_, ?_, ?_⟩ <;> simp [SampleGen, hb, hI, hse0, hae0]
  · refine ⟨?_, ?_, ?_⟩ <;> simp [SampleGen, hb, hI]

/-- Claim C6 witness: the elapsed/interval equations applied to the
end-to-end scenario state (spec §8). -/
theorem sampleGen_elapsed_and_interval_witness :
    e2eState.lastSampleBasis = some (SkbSent {} 0 true 1).2 ∧
    (SkbSent {} 0 true 1).2.first_sent_time_at_send ≤ e2eState.m_firstSentTime ∧
    (SkbSent {} 0 true 1).2.delivered_time_at_send ≤ (1/20 : ℚ) ∧
    (SampleGen e2eState (1/20) 100 0 false (1/50)).2.m_sendElapsed =
      e2eState.m_firstSentTime - (SkbSent {} 0 true 1).2.first_sent_time_at_send ∧
    (SampleGen e2eState (1/20) 100 0 false (1/50)).2.m_ackElapsed =
      (1/20 : ℚ) - (SkbSent {} 0 true 1).2.delivered_time_at_send ∧
    (SampleGen e2eState (1/20) 100 0 false (1/50)).2.m_interval =
      max (e2eState.m_firstSentTime - (SkbSent {} 0 true 1).2.first_sent_time_at_send)
          ((1/20 : ℚ) - (SkbSent {} 0 true 1).2.delivered_time_at_send) := by
  have hb : e2eState.lastSampleBasis = some (SkbSent {} 0 true 1).2 := by
    norm_num [e2eState, SkbDelivered, SkbSent]
  have hs : (SkbSent {} 0 true 1).2.first_sent_time_at_send ≤ e2eState.m_firstSentTime := by
    norm_num [e2eState, SkbDelivered, SkbSent]
  have ha : (SkbSent {} 0 true 1).2.delivered_time_at_send ≤ (1/20 : ℚ) := by
    norm_num [SkbSent]
  have h := sampleGen_elapsed_and_interval e2eState (1/20) 100 0 (1/50)
    (SkbSent {} 0 true 1).2 hb hs ha
  exact ⟨hb, hs, ha, h.1, h.2.1, h.2.2⟩

/-- Claim C9: with `is_sack_reneg = false`, a basis `b` selected this
pass, and a positive interval, the sample is populated from the basis
and the pass counts: `delivery_rate = delivered / interval`,
`interval = max send_elapsed ack_elapsed`, `prior_delivered =
b.delivered_at_send`, `prior_time = b.delivered_time_at_send`,
`is_app_limited = b.is_app_limited_at_send` (as 1/0), `packet_loss =
lost`, and the sample is valid. -/
theorem sampleGen_rate_and_basis_fields (st : RateState) (now : ℚ)
    (delivered lost : Nat) (minRtt : ℚ) (b : SegmentSnapshot)
    (hb : st.lastSampleBasis = some b)
    (hpos : 0 < max (st.m_firstSentTime - b.first_sent_time_at_send)
                    (now - b.delivered_time_at_send)) :
    (SampleGen st now delivered lost false minRtt).2.m_deliveryRate =
      (delivered : ℚ) / max (st.m_firstSentTime - b.first_sent_time_at_send)
                            (now - b.delivered_time_at_send) ∧
    (SampleGen st now delivered lost false minRtt).2.m_interval =
      max (st.m_firstSentTime - b.first_sent_time_at_send)
          (now - b.delivered_time_at_send) ∧
    (SampleGen st now delivered lost false minRtt).2.m_priorDelivered =
      b.delivered_at_send ∧
    (SampleGen st now delivered lost false minRtt).2.m_priorTime =
      b.delivered_time_at_send ∧
    (SampleGen st now delivered lost false minRtt).2.m_isAppLimited =
      (if b.is_app_limited_at_send then 1 else 0) ∧
    (SampleGen st now delivered lost false minRtt).2.m_packetLoss = lost ∧
    (SampleGen st now delivered lost false minRtt).2.IsValid = true := by
  have hI : ¬ max (st.m_firstSentTime - b.first_sent_time_at_send)
      (now - b.delivered_time_at_send) ≤ 0 := not_le.mpr hpos
  refine ⟨?_, ?_, ?_, ?_, ?_, ?_, ?_⟩ <;>
    simp [SampleGen, hb, hI, TcpRateSample.IsValid, Bool.or_eq_true, bne_iff_ne]
  exact Or.inr (ne_of_gt hpos)

/-- Claim C9 witness: the end-to-end scenario of spec §8 — a 100-byte
segment sent at t = 0 (start of transmission) and delivered at
t = 50 ms yields interval 1/20 s, delivery rate 2000 bytes/s, and a
valid sample. -/
theorem sampleGen_rate_and_basis_fields_witness :
    e2eState.lastSampleBasis = some (SkbSent {} 0 true 1).2 ∧
    (0:ℚ) < max (e2eState.m_firstSentTime - (SkbSent {} 0 true 1).2.first_sent_time_at_send)
        ((1/20 : ℚ) - (SkbSent {} 0 true 1).2.delivered_time_at_send) ∧
    (SampleGen e2eState (1/20) 100 0 false (1/50)).2.m_deliveryRate = 2000 ∧
    (SampleGen e2eState (1/20) 100 0 false (1/50)).2.m_interval = 1/20 ∧
    (SampleGen e2eState (1/20) 100 0 false (1/50)).2.IsValid = true := by
  have hb : e2eState.lastSampleBasis = some (SkbSent {} 0 true 1).2 := by
    norm_num [e2eState, SkbDelivered, SkbSent]
  have hpos : (0:ℚ) < max (e2eState.m_firstSentTime -
      (SkbSent {} 0 true 1).2.first_sent_time_at_send)
      ((1/20 : ℚ) - (SkbSent {} 0 true 1).2.delivered_time_at_send) := by
    norm_num [e2eState, SkbDelivered, SkbSent, lt_max_iff]
  have h := sampleGen_rate_and_basis_fields e2eState (1/20) 100 0 (1/50)
    (SkbSent {} 0 true 1).2 hb hpos
  refine ⟨hb, hpos, ?_, ?_, h.2.2.2.2.2.2⟩
  · rw [h.1]
    norm_num [e2eState, SkbDelivered, SkbSent, max_def]
  · rw [h.2.1]
    norm_num [e2eState, SkbDelivered, SkbSent, max_def]

/-- Helper for claim C4: one valid call (clock not moving backwards)
never decreases `m_delivered` or `m_deliveredTime`. -/
theorem step_delivered_mono (st : RateState) (e : RateEvent)
    (h : eventValid st e = true) :
    st.m_delivered ≤ (step st e).m_delivered ∧
    st.m_deliveredTime ≤ (step st e).m_deliveredTime := by
  cases e with
  | segSent now isStart seq =>
      have hle : st.m_deliveredTime ≤ now := by
        simpa [eventValid] using h
      cases isStart <;> simp [step, SkbSent, hle]
  | segDelivered now skb size =>
      have hle : st.m_deliveredTime ≤ now := by
        simpa [eventValid] using h
      cases hB : st.lastSampleBasis with
      | none => simp [step, SkbDelivered, hB, Nat.le_add_right, hle]
      | some b =>
          by_cases hlt : b.delivered_at_send < skb.delivered_at_send <;>
            simp [step, SkbDelivered, hB, hlt, Nat.le_add_right, hle]
  | appLimitedCheck cWnd inFlight segmentSize tailSeq nextTx =>
      by_cases hc : inFlight + segmentSize ≤ cWnd ∧ tailSeq ≤ nextTx <;>
        simp [step, CalculateAppLimited, hc]
  | sampleGen now delivered lost isSackReneg minRtt =>
      cases isSackReneg with
      | true => simp [step, SampleGen]
      | false =>
          cases hB : st.lastSampleBasis with
          | none => simp [step, SampleGen, hB]
          | some b =>
              by_cases hI : max (st.m_firstSentTime - b.first_sent_time_at_send)
                  (now - b.delivered_time_at_send) ≤ 0 <;>
                simp [step, SampleGen, hB, hI]

/-- Claim C4: over every valid call sequence (each call's clock at least
the state's `delivered_time`), the Rate State fields `m_delivered` and
`m_deliveredTime` are non-decreasing. -/
theorem delivered_monotone_of_validSeq (st : RateState) (es : List RateEvent)
    (h : validSeq st es = true) :
    st.m_delivered ≤ (runEvents st es).m_delivered ∧
    st.m_deliveredTime ≤ (runEvents st es).m_deliveredTime := by
  induction es generalizing st with
  | nil => simp [runEvents]
  | cons e es ih =>
      rw [validSeq, Bool.and_eq_true] at h
      have h1 := step_delivered_mono st e h.1
      have h2 := ih (step st e) h.2
      exact ⟨le_trans h1.1 (by simpa [runEvents] using h2.1),
             le_trans h1.2 (by simpa [runEvents] using h2.2)⟩

/-- Claim C4 witness: the send-then-deliver trace is a valid sequence and
the monotonicity holds along it from the initial state. -/
theorem delivered_monotone_of_validSeq_witness :
    validSeq {} e2eTrace = true ∧
    (({} : RateState).m_delivered ≤ (runEvents {} e2eTrace).m_delivered ∧
     ({} : RateState).m_deliveredTime ≤ (runEvents {} e2eTrace).m_deliveredTime) := by
  have hv : validSeq {} e2eTrace = true := by
    norm_num [e2eTrace, validSeq, eventValid, step, SkbSent, decide_eq_true_eq]
  exact ⟨hv, delivered_monotone_of_validSeq {} e2eTrace hv⟩
